import Mathlib

/-!
Shallow embedding of the scroll/observation coordination core of
`htmx-r-dist`: the section observer in `js/htmx-r-observer.js`
(`createSectionObserver`, its `IntersectionObserver` callback, `setScrolling`,
and `initDocsObserver`'s `onSectionChange` handler) together with the
nav-link click handler installed by `initDocsNav` in the scroll utility.

The browser host is modelled as a single-threaded event system: the state of
one observer instance is a `SysState`, and the external stimuli (visibility
batches, `setScrolling` calls, timer expiries, time passing, link clicks) are
`Step`s applied by `stepF`.  `setTimeout` / `clearTimeout` are modelled by a
list of live timers with monotonically allocated ids; a timer may only fire
while it is live and its expiry has been reached.
-/

namespace HtmxR

/-- One `IntersectionObserverEntry` as seen by the callback: the observed
target's `id` attribute and its `isIntersecting` flag. -/
structure Entry where
  targetId : String
  isIntersecting : Bool
deriving DecidableEq, Repr

/-- One sidebar navigation anchor: its `href` fragment (the section id it
points at) and whether it currently carries the active class. -/
structure NavLink where
  href : String
  active : Bool
deriving DecidableEq, Repr

/-- A live `setTimeout` registration: its handle and absolute expiry time. -/
structure Timer where
  id : Nat
  expiry : Nat
deriving DecidableEq, Repr

/-- The state of one observer instance plus the page pieces it drives:
the closed-over `isScrolling` / `scrollTimeout` variables of
`createSectionObserver`, the host's live timers and clock, the observed
section ids, the sidebar links, and logs of the `onSectionChange`
invocations and issued scroll commands. -/
structure SysState where
  sections : List String
  navLinks : List NavLink
  disableDuringScroll : Bool
  isScrolling : Bool
  scrollTimeout : Option Nat
  timers : List Timer
  nextTimerId : Nat
  now : Nat
  changeLog : List String
  scrollTargets : List String
deriving DecidableEq, Repr

/-- Removal of the active class from every nav link
(`navLinks.forEach(link => link.classList.remove(activeClass))`). -/
def unmarkAll (ls : List NavLink) : List NavLink :=
  ls.map fun l => { l with active := false }

/-- Addition of the active class to the first link whose `href` matches
(`document.querySelector` returns the first match in document order). -/
def markFirst (ls : List NavLink) (id : String) : List NavLink :=
  match ls with
  | [] => []
  | l :: rest =>
    if l.href = id then { l with active := true } :: rest
    else l :: markFirst rest id

/-- The `setActiveLink` helper of the scroll utility, identical to the
`onSectionChange` handler built by `initDocsObserver`: unmark every nav link,
then mark the (first) link whose href targets `id`, if any. -/
def setActiveLink (ls : List NavLink) (id : String) : List NavLink :=
  markFirst (unmarkAll ls) id

/-- Number of nav links currently carrying the active class. -/
def countActive (ls : List NavLink) : Nat :=
  (ls.filter fun l => l.active).length

/-- The identifier highlighted in the sidebar: the href of the first link
carrying the active class, if any. -/
def activeIdOf (ls : List NavLink) : Option String :=
  (ls.find? fun l => l.active).map NavLink.href

/-- The active identifier of the whole state. -/
def activeId (s : SysState) : Option String :=
  activeIdOf s.navLinks

/-- The `onSectionChange` handler wired by `initDocsObserver`: update the
sidebar marking and record the invocation (the `changeLog` models the exact
sequence of `onSectionChange` calls). -/
def onSectionChange (sectionId : String) (s : SysState) : SysState :=
  { s with navLinks := setActiveLink s.navLinks sectionId,
           changeLog := s.changeLog ++ [sectionId] }

/-- Body of the `entries.forEach` loop in the `IntersectionObserver`
callback: an intersecting entry invokes `onSectionChange` with the target's
id; others are skipped. -/
def processEntry (s : SysState) (e : Entry) : SysState :=
  if e.isIntersecting then onSectionChange e.targetId s else s

/-- The `IntersectionObserver` callback of `createSectionObserver`: the whole
batch is dropped when `disableDuringScroll && isScrolling`, otherwise the
entries are processed in delivery order. -/
def observerCallback (entries : List Entry) (s : SysState) : SysState :=
  if s.disableDuringScroll && s.isScrolling then s
  else entries.foldl processEntry s

/-- The `clearTimeout(scrollTimeout)` call: drop the timer whose handle is
held in `scrollTimeout`, a no-op when the variable is still unset or the
timer already fired or was cancelled. -/
def clearTO (timers : List Timer) : Option Nat → List Timer
  | none => timers
  | some tid => timers.filter fun t => t.id != tid

/-- The `setScrolling` closure returned by `createSectionObserver`: set the
flag, always clear the pending timeout, and when entering the scrolling
state arm a fresh timer that will clear the flag after `duration`. -/
def setScrolling (state : Bool) (duration : Nat) (s : SysState) : SysState :=
  let s1 : SysState :=
    { s with isScrolling := state, timers := clearTO s.timers s.scrollTimeout }
  if state then
    { s1 with timers := s1.timers ++ [⟨s1.nextTimerId, s1.now + duration⟩],
              scrollTimeout := some s1.nextTimerId,
              nextTimerId := s1.nextTimerId + 1 }
  else s1

/-- Expiry of the timer with handle `tid`: the host runs the
`() => { isScrolling = false; }` callback and retires the timer, and can do
so only while the timer is live and due. -/
def timerFire (tid : Nat) (s : SysState) : SysState :=
  if ∃ t ∈ s.timers, t.id = tid ∧ t.expiry ≤ s.now then
    { s with isScrolling := false, timers := s.timers.filter fun t => t.id != tid }
  else s

/-- Passage of `dt` milliseconds of host time. -/
def tick (dt : Nat) (s : SysState) : SysState :=
  { s with now := s.now + dt }

/-- The click listener installed by `initDocsNav` on each nav link: when an
element with the target id exists, mark its link active and issue a smooth
scroll command; otherwise do nothing at all. -/
def clickHandler (targetId : String) (s : SysState) : SysState :=
  if targetId ∈ s.sections then
    { s with navLinks := setActiveLink s.navLinks targetId,
             scrollTargets := s.scrollTargets ++ [targetId] }
  else s

/-- The `createSectionObserver` entry point: it performs no validation of the
supplied section set, installs the observer over exactly the given sections,
and starts with the flag down and no pending timeout. -/
def createSectionObserver (sections : List String) (navLinks : List NavLink)
    (disableDuringScroll : Bool) : SysState :=
  { sections := sections, navLinks := navLinks,
    disableDuringScroll := disableDuringScroll,
    isScrolling := false, scrollTimeout := none, timers := [],
    nextTimerId := 0, now := 0, changeLog := [], scrollTargets := [] }

/-- The spec's `suppressFor(durationMs)`: in the source this is exactly
`setScrolling(true, durationMs)`. -/
def suppressFor (duration : Nat) (s : SysState) : SysState :=
  setScrolling true duration s

/-- Modelled from the spec: the `ScrollCoordinator.navigateTo` wiring that
arms suppression on a nav-link click is not part of `src/` (the framework
glue lives in the private `htmx-r` source repository); per §4.2 it is the
source click handler (highlight + smooth scroll, silently skipped when the
target id matches no section, as the source guard does) composed with the
source `setScrolling(true, 1000)` re-arm. -/
def navigateTo (targetId : String) (s : SysState) : SysState :=
  if targetId ∈ s.sections then setScrolling true 1000 (clickHandler targetId s)
  else s

/-- The spec's error kinds (§7). -/
inductive ObsError where
  | InvalidArgument
  | NotFound
deriving DecidableEq, Repr

/-- Modelled from the spec: the validation contract §4.1 prescribes for
`observe` — fail with `InvalidArgument` on an empty or duplicate-id region
set — stated separately for comparison with the source
`createSectionObserver`, which has no such check. -/
def observeSpec (sections : List String) : Except ObsError Unit :=
  if sections.isEmpty ∨ ¬ sections.Nodup then Except.error ObsError.InvalidArgument
  else Except.ok ()

/-- Modelled from the spec: the error contract §4.2 prescribes for
`navigateTo` — fail with `NotFound` when no region matches — stated
separately for comparison with the source click handler, which silently
no-ops on a missing target. -/
def navigateToSpec (s : SysState) (targetId : String) : Except ObsError SysState :=
  if targetId ∈ s.sections then Except.ok (navigateTo targetId s)
  else Except.error ObsError.NotFound

/-- An external stimulus delivered to the instance by the host. -/
inductive Step where
  | batch (entries : List Entry)
  | setScroll (state : Bool) (duration : Nat)
  | fire (tid : Nat)
  | tick (dt : Nat)
  | click (targetId : String)
  | nav (targetId : String)
deriving DecidableEq, Repr

/-- Effect of one stimulus. -/
def stepF : Step → SysState → SysState
  | Step.batch es, s => observerCallback es s
  | Step.setScroll b d, s => setScrolling b d s
  | Step.fire tid, s => timerFire tid s
  | Step.tick dt, s => tick dt s
  | Step.click id, s => clickHandler id s
  | Step.nav id, s => navigateTo id s

/-- A run of the event system over a list of stimuli, in delivery order. -/
def runTrace (tr : List Step) (s : SysState) : SysState :=
  tr.foldl (fun st σ => stepF σ st) s

/-- Total host time advanced along a trace. -/
def elapsed : List Step → Nat
  | [] => 0
  | Step.tick dt :: tr => dt + elapsed tr
  | _ :: tr => elapsed tr

/-- A stimulus not initiated by the page's own code: visibility batches,
timer expiries and the passage of time. -/
def isPassive : Step → Bool
  | Step.batch _ => true
  | Step.fire _ => true
  | Step.tick _ => true
  | _ => false

/-- A stimulus drawn from the interleavings named by the coordinator
invariant: visibility batches, `setScrolling` calls, timer expiry and time
passing. -/
def isCoordStep : Step → Bool
  | Step.batch _ => true
  | Step.setScroll _ _ => true
  | Step.fire _ => true
  | Step.tick _ => true
  | _ => false

/-- Every intersecting entry of a batch step targets an observed section
(the platform delivers entries only for observed targets). -/
def BatchTracked : Step → SysState → Prop
  | Step.batch es, s => ∀ e ∈ es, e.isIntersecting = true → e.targetId ∈ s.sections
  | _, _ => True

instance : (σ : Step) → (s : SysState) → Decidable (BatchTracked σ s)
  | Step.batch es, s =>
    inferInstanceAs (Decidable (∀ e ∈ es, e.isIntersecting = true → e.targetId ∈ s.sections))
  | Step.setScroll _ _, _ => inferInstanceAs (Decidable True)
  | Step.fire _, _ => inferInstanceAs (Decidable True)
  | Step.tick _, _ => inferInstanceAs (Decidable True)
  | Step.click _, _ => inferInstanceAs (Decidable True)
  | Step.nav _, _ => inferInstanceAs (Decidable True)

/-- The reachable-timer-state invariant: at most one timer is live, the live
timer (if any) is the one whose handle `scrollTimeout` holds, and every live
handle is below the allocation counter. -/
def TimerInv (s : SysState) : Prop :=
  s.timers.length ≤ 1 ∧
  ∀ t ∈ s.timers, s.scrollTimeout = some t.id ∧ t.id < s.nextTimerId

instance (s : SysState) : Decidable (TimerInv s) := by
  unfold TimerInv; infer_instance

/-- A timer handle that is dead for good: below the allocation counter and
not among the live timers. -/
def idFree (tid : Nat) (s : SysState) : Prop :=
  tid < s.nextTimerId ∧ ∀ t ∈ s.timers, t.id ≠ tid

instance (tid : Nat) (s : SysState) : Decidable (idFree tid s) := by
  unfold idFree; infer_instance

/-- A demonstration page: three sections, three sidebar links, default
configuration, nothing active yet. -/
def demoState : SysState :=
  { sections := ["intro", "usage", "api"],
    navLinks := [⟨"intro", false⟩, ⟨"usage", false⟩, ⟨"api", false⟩],
    disableDuringScroll := true, isScrolling := false, scrollTimeout := none,
    timers := [], nextTimerId := 0, now := 0, changeLog := [], scrollTargets := [] }

/-- Every link is inactive after the unmark-all pass. -/
lemma unmarkAll_inactive (ls : List NavLink) : ∀ l ∈ unmarkAll ls, l.active = false := by
  intro l hl
  simp only [unmarkAll, List.mem_map] at hl
  obtain ⟨a, _, rfl⟩ := hl
  rfl

/-- Unmarking does not change which hrefs occur. -/
lemma unmarkAll_href (ls : List NavLink) :
    (unmarkAll ls).map NavLink.href = ls.map NavLink.href := by
  induction ls with
  | nil => rfl
  | cons l rest ih => simp only [unmarkAll, List.map_cons] at ih ⊢; rw [ih]

/-- A list of inactive links has no active ones. -/
lemma countActive_eq_zero (ls : List NavLink) (h : ∀ l ∈ ls, l.active = false) :
    countActive ls = 0 := by
  induction ls with
  | nil => rfl
  | cons l rest ih =>
    have hl : l.active = false := h l (List.mem_cons_self l rest)
    have hrest := ih fun x hx => h x (List.mem_cons_of_mem l hx)
    simpa [countActive, List.filter_cons, hl] using hrest

/-- Marking the first match in an all-inactive list activates exactly one
link when the id resolves and none otherwise. -/
lemma countActive_markFirst (ls : List NavLink) (id : String)
    (h : ∀ l ∈ ls, l.active = false) :
    countActive (markFirst ls id) = if id ∈ ls.map NavLink.href then 1 else 0 := by
  induction ls with
  | nil => simp [markFirst, countActive]
  | cons l rest ih =>
    have hl : l.active = false := h l (List.mem_cons_self l rest)
    have hrest : ∀ x ∈ rest, x.active = false := fun x hx => h x (List.mem_cons_of_mem l hx)
    by_cases hh : l.href = id
    · have hz := countActive_eq_zero rest hrest
      simp [markFirst, hh, countActive, List.filter_cons] at hz ⊢
      simpa [countActive] using hz
    · have := ih hrest
      simp [markFirst, hh, countActive, List.filter_cons, hl] at this ⊢
      simpa [countActive, Ne.symm hh] using this

/-- Finding the first active link after marking an all-inactive list. -/
lemma find_markFirst (ls : List NavLink) (id : String)
    (h : ∀ l ∈ ls, l.active = false) :
    (markFirst ls id).find? (fun l => l.active) =
      if id ∈ ls.map NavLink.href then some ⟨id, true⟩ else none := by
  induction ls with
  | nil => simp [markFirst]
  | cons l rest ih =>
    have hl : l.active = false := h l (List.mem_cons_self l rest)
    have hrest : ∀ x ∈ rest, x.active = false := fun x hx => h x (List.mem_cons_of_mem l hx)
    by_cases hh : l.href = id
    · simp [markFirst, hh, List.find?_cons_of_pos]
    · simp [markFirst, hh, List.find?_cons_of_neg, hl, ih hrest, Ne.symm hh]

/-- Only the matching href can be active after marking an all-inactive list. -/
lemma active_href_markFirst (ls : List NavLink) (id : String)
    (h : ∀ l ∈ ls, l.active = false) :
    ∀ l ∈ markFirst ls id, l.active = true → l.href = id := by
  induction ls with
  | nil => simp [markFirst]
  | cons l rest ih =>
    have hl : l.active = false := h l (List.mem_cons_self l rest)
    have hrest : ∀ x ∈ rest, x.active = false := fun x hx => h x (List.mem_cons_of_mem l hx)
    by_cases hh : l.href = id
    · intro x hx hact
      rw [markFirst, if_pos hh] at hx
      rcases List.mem_cons.mp hx with hx1 | hx2
      · subst hx1; exact hh
      · exact absurd hact (by simp [hrest x hx2])
    · intro x hx hact
      rw [markFirst, if_neg hh] at hx
      rcases List.mem_cons.mp hx with hx1 | hx2
      · subst hx1; exact absurd hact (by simp [hl])
      · exact ih hrest x hx2 hact

/-- The active identifier after a `setActiveLink` is the id when a link for
it exists, and nothing otherwise. -/
lemma activeIdOf_setActiveLink (ls : List NavLink) (id : String) :
    activeIdOf (setActiveLink ls id) =
      if id ∈ ls.map NavLink.href then some id else none := by
  unfold activeIdOf setActiveLink
  rw [find_markFirst (unmarkAll ls) id (unmarkAll_inactive ls), unmarkAll_href]
  by_cases h : id ∈ ls.map NavLink.href <;> simp [h]

/-- The active-marking count after a `setActiveLink`. -/
lemma countActive_setActiveLink (ls : List NavLink) (id : String) :
    countActive (setActiveLink ls id) = if id ∈ ls.map NavLink.href then 1 else 0 := by
  unfold setActiveLink
  rw [countActive_markFirst (unmarkAll ls) id (unmarkAll_inactive ls), unmarkAll_href]

/-- Processing one entry touches only the nav links and the change log. -/
lemma processEntry_frame (s : SysState) (e : Entry) :
    (processEntry s e).sections = s.sections ∧
    (processEntry s e).disableDuringScroll = s.disableDuringScroll ∧
    (processEntry s e).isScrolling = s.isScrolling ∧
    (processEntry s e).scrollTimeout = s.scrollTimeout ∧
    (processEntry s e).timers = s.timers ∧
    (processEntry s e).nextTimerId = s.nextTimerId ∧
    (processEntry s e).now = s.now ∧
    (processEntry s e).scrollTargets = s.scrollTargets := by
  by_cases h : e.isIntersecting = true <;> simp [processEntry, onSectionChange, h]

/-- Processing a batch touches only the nav links and the change log. -/
lemma foldl_frame (es : List Entry) (s : SysState) :
    (es.foldl processEntry s).sections = s.sections ∧
    (es.foldl processEntry s).disableDuringScroll = s.disableDuringScroll ∧
    (es.foldl processEntry s).isScrolling = s.isScrolling ∧
    (es.foldl processEntry s).scrollTimeout = s.scrollTimeout ∧
    (es.foldl processEntry s).timers = s.timers ∧
    (es.foldl processEntry s).nextTimerId = s.nextTimerId ∧
    (es.foldl processEntry s).now = s.now ∧
    (es.foldl processEntry s).scrollTargets = s.scrollTargets := by
  induction es generalizing s with
  | nil => exact ⟨rfl, rfl, rfl, rfl, rfl, rfl, rfl, rfl⟩
  | cons e rest ih =>
    have hp := processEntry_frame s e
    have hr := ih (processEntry s e)
    exact ⟨hr.1.trans hp.1, hr.2.1.trans hp.2.1, hr.2.2.1.trans hp.2.2.1,
      hr.2.2.2.1.trans hp.2.2.2.1, hr.2.2.2.2.1.trans hp.2.2.2.2.1,
      hr.2.2.2.2.2.1.trans hp.2.2.2.2.2.1, hr.2.2.2.2.2.2.1.trans hp.2.2.2.2.2.2.1,
      hr.2.2.2.2.2.2.2.trans hp.2.2.2.2.2.2.2⟩

/-- The change log records exactly one callback invocation per intersecting
entry, in delivery order. -/
lemma foldl_changeLog (es : List Entry) (s : SysState) :
    (es.foldl processEntry s).changeLog =
      s.changeLog ++ (es.filter fun e => e.isIntersecting).map Entry.targetId := by
  induction es generalizing s with
  | nil => simp
  | cons e rest ih =>
    by_cases h : e.isIntersecting = true
    · simp [List.filter_cons, h, ih, processEntry, onSectionChange]
    · simp [List.filter_cons, h, ih, processEntry]

/-- Changing the scrolling flag touches neither the page content nor the
clock nor the logs. -/
lemma setScrolling_frame (b : Bool) (d : Nat) (s : SysState) :
    (setScrolling b d s).sections = s.sections ∧
    (setScrolling b d s).navLinks = s.navLinks ∧
    (setScrolling b d s).disableDuringScroll = s.disableDuringScroll ∧
    (setScrolling b d s).now = s.now ∧
    (setScrolling b d s).changeLog = s.changeLog ∧
    (setScrolling b d s).scrollTargets = s.scrollTargets := by
  cases b <;> simp [setScrolling]

/-- A timer expiry touches only the scrolling flag and the timer list. -/
lemma timerFire_frame (tid : Nat) (s : SysState) :
    (timerFire tid s).sections = s.sections ∧
    (timerFire tid s).navLinks = s.navLinks ∧
    (timerFire tid s).disableDuringScroll = s.disableDuringScroll ∧
    (timerFire tid s).scrollTimeout = s.scrollTimeout ∧
    (timerFire tid s).nextTimerId = s.nextTimerId ∧
    (timerFire tid s).now = s.now ∧
    (timerFire tid s).changeLog = s.changeLog ∧
    (timerFire tid s).scrollTargets = s.scrollTargets := by
  unfold timerFire; split <;> simp

/-- The click handler touches only the nav links and the scroll log. -/
lemma clickHandler_frame (id : String) (s : SysState) :
    (clickHandler id s).sections = s.sections ∧
    (clickHandler id s).disableDuringScroll = s.disableDuringScroll ∧
    (clickHandler id s).isScrolling = s.isScrolling ∧
    (clickHandler id s).scrollTimeout = s.scrollTimeout ∧
    (clickHandler id s).timers = s.timers ∧
    (clickHandler id s).nextTimerId = s.nextTimerId ∧
    (clickHandler id s).now = s.now ∧
    (clickHandler id s).changeLog = s.changeLog := by
  unfold clickHandler; split <;> simp

/-- Under the timer invariant, clearing the held timeout empties the live
timer list. -/
lemma clearTO_of_inv (s : SysState) (h : TimerInv s) :
    clearTO s.timers s.scrollTimeout = [] := by
  cases hst : s.scrollTimeout with
  | none =>
    have hnil : s.timers = [] := by
      cases ht : s.timers with
      | nil => rfl
      | cons t rest =>
        have := (h.2 t (by simp [ht])).1
        rw [hst] at this
        cases this
    simp [clearTO, hnil]
  | some tid =>
    unfold clearTO
    rw [List.filter_eq_nil_iff]
    intro t ht
    have := (h.2 t ht).1
    rw [hst] at this
    have hid : t.id = tid := by injection this with h2; exact h2.symm
    simp [hid]

/-- Arming the flag replaces all live timers by a single fresh one expiring
`d` from now. -/
lemma setScrolling_true_parts (d : Nat) (s : SysState) (h : TimerInv s) :
    (setScrolling true d s).timers = [⟨s.nextTimerId, s.now + d⟩] ∧
    (setScrolling true d s).scrollTimeout = some s.nextTimerId ∧
    (setScrolling true d s).nextTimerId = s.nextTimerId + 1 ∧
    (setScrolling true d s).isScrolling = true := by
  simp [setScrolling, clearTO_of_inv s h]

/-- Dropping the flag clears the live timer list and arms nothing. -/
lemma setScrolling_false_parts (d : Nat) (s : SysState) (h : TimerInv s) :
    (setScrolling false d s).timers = [] ∧
    (setScrolling false d s).isScrolling = false := by
  simp [setScrolling, clearTO_of_inv s h]

/-- The timer invariant only looks at the three timer fields. -/
lemma TimerInv_transport (s1 s2 : SysState)
    (ht : s2.timers = s1.timers) (hst : s2.scrollTimeout = s1.scrollTimeout)
    (hn : s2.nextTimerId = s1.nextTimerId) (h : TimerInv s1) : TimerInv s2 := by
  unfold TimerInv at h ⊢
  rw [ht, hst, hn]
  exact h

/-- `setScrolling` preserves the timer invariant. -/
lemma TimerInv_setScrolling (b : Bool) (d : Nat) (s : SysState) (h : TimerInv s) :
    TimerInv (setScrolling b d s) := by
  cases b with
  | false =>
    obtain ⟨ht, _⟩ := setScrolling_false_parts d s h
    exact ⟨by rw [ht]; simp, by rw [ht]; intro t ht'; cases ht'⟩
  | true =>
    obtain ⟨ht, hst, hn, _⟩ := setScrolling_true_parts d s h
    refine ⟨by rw [ht]; simp, ?_⟩
    rw [ht]
    intro t ht'
    have : t = ⟨s.nextTimerId, s.now + d⟩ := by simpa using ht'
    subst this
    rw [hst, hn]
    exact ⟨rfl, Nat.lt_succ_self _⟩

/-- A timer expiry preserves the timer invariant. -/
lemma TimerInv_timerFire (tid : Nat) (s : SysState) (h : TimerInv s) :
    TimerInv (timerFire tid s) := by
  unfold timerFire
  split
  · exact ⟨le_trans (List.length_filter_le _ _) h.1,
      fun t ht => h.2 t (List.mem_of_mem_filter ht)⟩
  · exact h

/-- A visibility batch preserves the timer invariant. -/
lemma TimerInv_observerCallback (es : List Entry) (s : SysState) (h : TimerInv s) :
    TimerInv (observerCallback es s) := by
  unfold observerCallback
  split
  · exact h
  · have hf := foldl_frame es s
    exact TimerInv_transport s _ hf.2.2.2.2.1 hf.2.2.2.1 hf.2.2.2.2.2.1 h

/-- A nav-link click preserves the timer invariant. -/
lemma TimerInv_clickHandler (id : String) (s : SysState) (h : TimerInv s) :
    TimerInv (clickHandler id s) := by
  have hf := clickHandler_frame id s
  exact TimerInv_transport s _ hf.2.2.2.2.1 hf.2.2.2.1 hf.2.2.2.2.2.1 h

/-- Time passing preserves the timer invariant. -/
lemma TimerInv_tick (dt : Nat) (s : SysState) (h : TimerInv s) : TimerInv (tick dt s) := h

/-- A navigation preserves the timer invariant. -/
lemma TimerInv_navigateTo (id : String) (s : SysState) (h : TimerInv s) :
    TimerInv (navigateTo id s) := by
  unfold navigateTo
  split
  · exact TimerInv_setScrolling true 1000 _ (TimerInv_clickHandler id s h)
  · exact h

/-- Every stimulus preserves the timer invariant. -/
lemma TimerInv_step (σ : Step) (s : SysState) (h : TimerInv s) : TimerInv (stepF σ s) := by
  cases σ with
  | batch es => exact TimerInv_observerCallback es s h
  | setScroll b d => exact TimerInv_setScrolling b d s h
  | fire tid => exact TimerInv_timerFire tid s h
  | tick dt => exact TimerInv_tick dt s h
  | click id => exact TimerInv_clickHandler id s h
  | nav id => exact TimerInv_navigateTo id s h

/-- Clearing a timeout can only remove timers. -/
lemma clearTO_subset (timers : List Timer) (o : Option Nat) :
    ∀ t ∈ clearTO timers o, t ∈ timers := by
  cases o with
  | none => intro t ht; exact ht
  | some tid => intro t ht; exact List.mem_of_mem_filter ht

/-- A dead timer handle can never fire. -/
lemma idFree_fire_noop (tid : Nat) (s : SysState) (h : idFree tid s) :
    timerFire tid s = s := by
  unfold timerFire
  rw [if_neg]
  rintro ⟨t, ht, hid, _⟩
  exact h.2 t ht hid

/-- `setScrolling` keeps dead handles dead: fresh handles come from the
allocation counter, which is never reused. -/
lemma idFree_setScrolling (tid : Nat) (b : Bool) (d : Nat) (s : SysState)
    (h : idFree tid s) : idFree tid (setScrolling b d s) := by
  cases b with
  | false =>
    refine ⟨h.1, fun t ht => h.2 t (clearTO_subset _ _ t ht)⟩
  | true =>
    simp only [setScrolling, if_pos]
    refine ⟨Nat.lt_succ_of_lt h.1, ?_⟩
    intro t ht
    rcases List.mem_append.mp ht with h1 | h2
    · exact h.2 t (clearTO_subset _ _ t h1)
    · have : t = ⟨s.nextTimerId, s.now + d⟩ := by simpa using h2
      subst this
      exact Nat.ne_of_gt h.1

/-- The dead-handle predicate only looks at the timer fields. -/
lemma idFree_transport (tid : Nat) (s1 s2 : SysState)
    (ht : s2.timers = s1.timers) (hn : s2.nextTimerId = s1.nextTimerId)
    (h : idFree tid s1) : idFree tid s2 := by
  unfold idFree at h ⊢
  rw [ht, hn]
  exact h

/-- A visibility batch keeps dead handles dead. -/
lemma idFree_observerCallback (tid : Nat) (es : List Entry) (s : SysState)
    (h : idFree tid s) : idFree tid (observerCallback es s) := by
  unfold observerCallback
  split
  · exact h
  · have hf := foldl_frame es s
    exact idFree_transport tid s _ hf.2.2.2.2.1 hf.2.2.2.2.2.1 h

/-- A timer expiry keeps dead handles dead. -/
lemma idFree_timerFire (tid tid2 : Nat) (s : SysState) (h : idFree tid s) :
    idFree tid (timerFire tid2 s) := by
  unfold timerFire
  split
  · exact ⟨h.1, fun t ht => h.2 t (List.mem_of_mem_filter ht)⟩
  · exact h

/-- A nav-link click keeps dead handles dead. -/
lemma idFree_clickHandler (tid : Nat) (id : String) (s : SysState) (h : idFree tid s) :
    idFree tid (clickHandler id s) := by
  have hf := clickHandler_frame id s
  exact idFree_transport tid s _ hf.2.2.2.2.1 hf.2.2.2.2.2.1 h

/-- A navigation keeps dead handles dead. -/
lemma idFree_navigateTo (tid : Nat) (id : String) (s : SysState) (h : idFree tid s) :
    idFree tid (navigateTo id s) := by
  unfold navigateTo
  split
  · exact idFree_setScrolling tid true 1000 _ (idFree_clickHandler tid id s h)
  · exact h

/-- Every stimulus keeps dead handles dead. -/
lemma idFree_step (tid : Nat) (σ : Step) (s : SysState) (h : idFree tid s) :
    idFree tid (stepF σ s) := by
  cases σ with
  | batch es => exact idFree_observerCallback tid es s h
  | setScroll b d => exact idFree_setScrolling tid b d s h
  | fire tid2 => exact idFree_timerFire tid tid2 s h
  | tick dt => exact h
  | click id => exact idFree_clickHandler tid id s h
  | nav id => exact idFree_navigateTo tid id s h

/-- A dead handle stays dead along any trace. -/
lemma idFree_runTrace (tid : Nat) (tr : List Step) (s : SysState) (h : idFree tid s) :
    idFree tid (runTrace tr s) := by
  induction tr generalizing s with
  | nil => exact h
  | cons σ tr ih => exact ih (stepF σ s) (idFree_step tid σ s h)

/-- Entries that do not intersect leave the state alone. -/
lemma processEntry_skip (s : SysState) (e : Entry) (h : ¬ e.isIntersecting = true) :
    processEntry s e = s := by
  simp [processEntry, h]

/-- The active identifier after a batch is the old one, or comes from some
intersecting entry of the batch (possibly unresolvable). -/
lemma activeId_foldl (es : List Entry) (s : SysState) :
    activeId (es.foldl processEntry s) = activeId s ∨
    ∃ e, e ∈ es ∧ e.isIntersecting = true ∧
      (activeId (es.foldl processEntry s) = some e.targetId ∨
       activeId (es.foldl processEntry s) = none) := by
  induction es generalizing s with
  | nil => left; rfl
  | cons e rest ih =>
    rcases ih (processEntry s e) with h1 | ⟨e2, he2, hi2, hv2⟩
    · by_cases hi : e.isIntersecting = true
      · right
        refine ⟨e, List.mem_cons_self e rest, hi, ?_⟩
        have hfold : (e :: rest).foldl processEntry s = rest.foldl processEntry (processEntry s e) := rfl
        rw [hfold, h1]
        have hset := activeIdOf_setActiveLink s.navLinks e.targetId
        by_cases hm : e.targetId ∈ s.navLinks.map NavLink.href
        · left; simp [activeId, processEntry, hi, onSectionChange, hset, hm]
        · right; simp [activeId, processEntry, hi, onSectionChange, hset, hm]
      · left
        have hskip := processEntry_skip s e hi
        have hfold : (e :: rest).foldl processEntry s = rest.foldl processEntry (processEntry s e) := rfl
        rw [hfold, h1, hskip]
    · exact Or.inr ⟨e2, List.mem_cons_of_mem e he2, hi2, hv2⟩

/-- While the flag is up under the default configuration, a trace of purely
passive stimuli totalling less than the remaining window changes nothing but
the clock: batches are dropped and the timer is not yet due. -/
lemma runTrace_frozen (tr : List Step) (s : SysState)
    (hp : tr.all isPassive = true)
    (hdd : s.disableDuringScroll = true) (hsc : s.isScrolling = true)
    (ht : ∀ t ∈ s.timers, s.now + elapsed tr < t.expiry) :
    runTrace tr s = { s with now := s.now + elapsed tr } := by
  induction tr generalizing s with
  | nil => simp [runTrace, elapsed]
  | cons σ tr ih =>
    rw [List.all_cons, Bool.and_eq_true] at hp
    cases σ with
    | batch es =>
      have hob : observerCallback es s = s := by
        unfold observerCallback
        rw [if_pos (by simp [hdd, hsc])]
      have hrun : runTrace (Step.batch es :: tr) s = runTrace tr s := by
        simp [runTrace, stepF, hob]
      have hel : elapsed (Step.batch es :: tr) = elapsed tr := rfl
      rw [hrun, hel]
      exact ih s hp.2 hdd hsc (by rw [← hel]; exact ht)
    | setScroll b d => cases hp.1
    | fire tid =>
      have hfire : timerFire tid s = s := by
        unfold timerFire
        rw [if_neg]
        rintro ⟨t, htm, _, hexp⟩
        have := ht t htm
        omega
      have hrun : runTrace (Step.fire tid :: tr) s = runTrace tr s := by
        simp [runTrace, stepF, hfire]
      have hel : elapsed (Step.fire tid :: tr) = elapsed tr := rfl
      rw [hrun, hel]
      exact ih s hp.2 hdd hsc (by rw [← hel]; exact ht)
    | tick dt =>
      have hrun : runTrace (Step.tick dt :: tr) s = runTrace tr (tick dt s) := rfl
      have hel : elapsed (Step.tick dt :: tr) = dt + elapsed tr := rfl
      rw [hrun, hel]
      have hih := ih (tick dt s) hp.2 hdd hsc (by
        intro t htm
        have := ht t htm
        simp [tick, elapsed] at this ⊢
        omega)
      rw [hih]
      simp [tick]
      omega
    | click id => cases hp.1
    | nav id => cases hp.1

/-- Marking an identifier always leaves at most one link active. -/
lemma countActive_setActiveLink_le (ls : List NavLink) (id : String) :
    countActive (setActiveLink ls id) ≤ 1 := by
  rw [countActive_setActiveLink]
  by_cases h : id ∈ ls.map NavLink.href <;> simp [h]

/-- Entry processing never raises the active count above one. -/
lemma countActive_processEntry_le (s : SysState) (e : Entry)
    (h : countActive s.navLinks ≤ 1) :
    countActive ((processEntry s e).navLinks) ≤ 1 := by
  unfold processEntry
  split
  · exact countActive_setActiveLink_le s.navLinks e.targetId
  · exact h

/-- Batch processing never raises the active count above one. -/
lemma countActive_foldl_le (es : List Entry) (s : SysState)
    (h : countActive s.navLinks ≤ 1) :
    countActive ((es.foldl processEntry s).navLinks) ≤ 1 := by
  induction es generalizing s with
  | nil => exact h
  | cons e rest ih => exact ih (processEntry s e) (countActive_processEntry_le s e h)

/-- A batch containing a qualifying entry leaves at most one link active,
whatever the marking looked like before. -/
lemma countActive_foldl_hit (es : List Entry) (s : SysState)
    (h : ∃ e ∈ es, e.isIntersecting = true) :
    countActive ((es.foldl processEntry s).navLinks) ≤ 1 := by
  induction es generalizing s with
  | nil =>
    rcases h with ⟨e, he, _⟩
    cases he
  | cons e rest ih =>
    by_cases hi : e.isIntersecting = true
    · have hfold : (e :: rest).foldl processEntry s =
          rest.foldl processEntry (processEntry s e) := rfl
      rw [hfold]
      apply countActive_foldl_le
      unfold processEntry
      rw [if_pos hi]
      exact countActive_setActiveLink_le s.navLinks e.targetId
    · rcases h with ⟨e2, he2, hi2⟩
      rcases List.mem_cons.mp he2 with rfl | he2
      · exact absurd hi2 hi
      · have hfold : (e :: rest).foldl processEntry s =
            rest.foldl processEntry (processEntry s e) := rfl
        rw [hfold, processEntry_skip s e hi]
        exact ih s ⟨e2, he2, hi2⟩

/-- C1: for every tracked region id, after `navigateTo(id)` the coordinator
is suppressed with a single release timer expiring 1000 ms from the call,
the active identifier is optimistically that id, and along any passive trace
(visibility batches, timer-expiry attempts, time passing) totalling less
than the window, every visibility event is dropped: the state is frozen but
for the clock, no callback fires, and the active identifier remains the
navigated id — in particular a stale `intro` event 300 ms after
`navigateTo("api")` leaves `api` active. -/
theorem navigateTo_suppresses_stale_visibility (s : SysState) (id : String)
    (tr : List Step)
    (hdd : s.disableDuringScroll = true)
    (hinv : TimerInv s)
    (hsec : id ∈ s.sections)
    (hlink : id ∈ s.navLinks.map NavLink.href)
    (hp : tr.all isPassive = true)
    (helapsed : elapsed tr < 1000) :
    (navigateTo id s).isScrolling = true ∧
    (navigateTo id s).timers.map Timer.expiry = [s.now + 1000] ∧
    activeId (navigateTo id s) = some id ∧
    runTrace tr (navigateTo id s) =
      { navigateTo id s with now := s.now + elapsed tr } ∧
    activeId (runTrace tr (navigateTo id s)) = some id ∧
    (runTrace tr (navigateTo id s)).changeLog = s.changeLog ∧
    (runTrace tr (navigateTo id s)).isScrolling = true := by
  have hnav : navigateTo id s = setScrolling true 1000 (clickHandler id s) := by
    unfold navigateTo
    rw [if_pos hsec]
  have hclick : clickHandler id s =
      { s with navLinks := setActiveLink s.navLinks id,
               scrollTargets := s.scrollTargets ++ [id] } := by
    unfold clickHandler
    rw [if_pos hsec]
  have hcf := clickHandler_frame id s
  have hcinv : TimerInv (clickHandler id s) := TimerInv_clickHandler id s hinv
  have hparts := setScrolling_true_parts 1000 (clickHandler id s) hcinv
  have hsf := setScrolling_frame true 1000 (clickHandler id s)
  have hscroll : (navigateTo id s).isScrolling = true := by
    rw [hnav]
    exact hparts.2.2.2
  have htimers : (navigateTo id s).timers = [⟨s.nextTimerId, s.now + 1000⟩] := by
    rw [hnav, hparts.1, hcf.2.2.2.2.2.1, hcf.2.2.2.2.2.2.1]
  have hmap : (navigateTo id s).timers.map Timer.expiry = [s.now + 1000] := by
    rw [htimers]
    rfl
  have hlinks : (navigateTo id s).navLinks = setActiveLink s.navLinks id := by
    rw [hnav, hsf.2.1, hclick]
  have hactive : activeId (navigateTo id s) = some id := by
    show activeIdOf (navigateTo id s).navLinks = some id
    rw [hlinks, activeIdOf_setActiveLink, if_pos hlink]
  have hddn : (navigateTo id s).disableDuringScroll = true := by
    rw [hnav, hsf.2.2.1, hcf.2.1, hdd]
  have hnow : (navigateTo id s).now = s.now := by
    rw [hnav, hsf.2.2.2.1, hcf.2.2.2.2.2.2.1]
  have hlog : (navigateTo id s).changeLog = s.changeLog := by
    rw [hnav, hsf.2.2.2.2.1, hcf.2.2.2.2.2.2.2]
  have hfreeze : runTrace tr (navigateTo id s) =
      { navigateTo id s with now := (navigateTo id s).now + elapsed tr } := by
    apply runTrace_frozen tr _ hp hddn hscroll
    intro t htm
    rw [htimers] at htm
    have ht : t = ⟨s.nextTimerId, s.now + 1000⟩ := by simpa using htm
    subst ht
    rw [hnow]
    show s.now + elapsed tr < s.now + 1000
    omega
  rw [hnow] at hfreeze
  exact ⟨hscroll, hmap, hactive, hfreeze,
    by rw [hfreeze]; exact hactive,
    by rw [hfreeze]; exact hlog,
    by rw [hfreeze]; exact hscroll⟩

/-- Witness for C1: the spec's stale-event scenario — a visibility event for
`intro` 300 ms after `navigateTo("api")` is discarded and `api` stays
active, with no callback fired. -/
theorem navigateTo_suppresses_stale_visibility_witness :
    ("api" ∈ demoState.sections ∧
      elapsed [Step.tick 300, Step.batch [⟨"intro", true⟩]] < 1000) ∧
    activeId (runTrace [Step.tick 300, Step.batch [⟨"intro", true⟩]]
      (navigateTo "api" demoState)) = some "api" ∧
    (runTrace [Step.tick 300, Step.batch [⟨"intro", true⟩]]
      (navigateTo "api" demoState)).changeLog = [] := by
  have h := navigateTo_suppresses_stale_visibility demoState "api"
    [Step.tick 300, Step.batch [⟨"intro", true⟩]] (by decide) (by decide)
    (by decide) (by decide) (by decide) (by decide)
  exact ⟨⟨by decide, by decide⟩, h.2.2.2.2.1, h.2.2.2.2.2.1⟩

/-- C2: under the default configuration, across the interleavings of
visibility batches, `setScrolling` calls, timer expiries and time passing,
the active identifier is changed only by a visibility batch processed while
the flag is down, and any new value is a tracked section id. -/
theorem activeId_change_only_unsuppressed_tracked (s : SysState) (σ : Step)
    (hdd : s.disableDuringScroll = true)
    (hcoord : isCoordStep σ = true)
    (htrk : BatchTracked σ s)
    (hch : activeId (stepF σ s) ≠ activeId s) :
    (∃ es, σ = Step.batch es) ∧ s.isScrolling = false ∧
    ∀ id, activeId (stepF σ s) = some id → id ∈ s.sections := by
  cases σ with
  | setScroll b d =>
    refine absurd ?_ hch
    show activeIdOf (setScrolling b d s).navLinks = activeIdOf s.navLinks
    rw [(setScrolling_frame b d s).2.1]
  | fire tid =>
    refine absurd ?_ hch
    show activeIdOf (timerFire tid s).navLinks = activeIdOf s.navLinks
    rw [(timerFire_frame tid s).2.1]
  | tick dt => exact absurd rfl hch
  | click id => cases hcoord
  | nav id => cases hcoord
  | batch es =>
    cases hscr : s.isScrolling with
    | true =>
      have hob : observerCallback es s = s := by
        unfold observerCallback
        rw [if_pos (by simp [hdd, hscr])]
      exact absurd (show activeId (observerCallback es s) = activeId s by rw [hob]) hch
    | false =>
      refine ⟨⟨es, rfl⟩, rfl, ?_⟩
      have hob : observerCallback es s = es.foldl processEntry s := by
        unfold observerCallback
        rw [if_neg (by simp [hscr])]
      intro id hid
      have hrw : stepF (Step.batch es) s = es.foldl processEntry s := by
        show observerCallback es s = es.foldl processEntry s
        exact hob
      rw [hrw] at hid hch
      rcases activeId_foldl es s with h1 | ⟨e, he, hi, hv⟩
      · exact absurd h1 hch
      · rcases hv with hv | hv
        · rw [hid] at hv
          have : id = e.targetId := by injection hv
          rw [this]
          exact htrk e he hi
        · rw [hv] at hid
          cases hid

/-- Witness for C2: a passive `usage` event on an unsuppressed page changes
the active identifier, and the theorem certifies the change was legal. -/
theorem activeId_change_only_unsuppressed_tracked_witness :
    (demoState.disableDuringScroll = true ∧
      activeId (stepF (Step.batch [⟨"usage", true⟩]) demoState) ≠ activeId demoState) ∧
    ((∃ es, Step.batch [⟨"usage", true⟩] = Step.batch es) ∧
      demoState.isScrolling = false ∧
      ∀ id, activeId (stepF (Step.batch [⟨"usage", true⟩]) demoState) = some id →
        id ∈ demoState.sections) := by
  refine ⟨⟨by decide, by decide⟩, ?_⟩
  exact activeId_change_only_unsuppressed_tracked demoState
    (Step.batch [⟨"usage", true⟩]) (by decide) (by decide) (by decide) (by decide)

/-- C3: every stimulus preserves the single-live-timer invariant; arming
(`suppressFor`, and `navigateTo` on a registered id) leaves exactly one
pending expiry measured from the call's time; and a timer live before the
re-arm is superseded for good — its expiry can never fire again along any
subsequent trace. -/
theorem at_most_one_suppression_timer (s : SysState) (d : Nat) (h : TimerInv s) :
    (∀ σ : Step, TimerInv (stepF σ s)) ∧
    (suppressFor d s).timers.map Timer.expiry = [s.now + d] ∧
    (∀ id, id ∈ s.sections → (navigateTo id s).timers.map Timer.expiry = [s.now + 1000]) ∧
    (∀ t ∈ s.timers, ∀ tr : List Step,
      timerFire t.id (runTrace tr (suppressFor d s)) = runTrace tr (suppressFor d s)) := by
  refine ⟨fun σ => TimerInv_step σ s h, ?_, ?_, ?_⟩
  · show (setScrolling true d s).timers.map Timer.expiry = [s.now + d]
    rw [(setScrolling_true_parts d s h).1]
    rfl
  · intro id hid
    have hnav : navigateTo id s = setScrolling true 1000 (clickHandler id s) := by
      unfold navigateTo
      rw [if_pos hid]
    have hcf := clickHandler_frame id s
    rw [hnav, (setScrolling_true_parts 1000 _ (TimerInv_clickHandler id s h)).1,
      hcf.2.2.2.2.2.2.1]
    rfl
  · intro t htm tr
    have hid : t.id < s.nextTimerId := (h.2 t htm).2
    have hparts := setScrolling_true_parts d s h
    have hfree : idFree t.id (suppressFor d s) := by
      constructor
      · show t.id < (setScrolling true d s).nextTimerId
        rw [hparts.2.2.1]
        omega
      · intro u hu
        have hu2 : u ∈ (setScrolling true d s).timers := hu
        rw [hparts.1] at hu2
        have : u = ⟨s.nextTimerId, s.now + d⟩ := by simpa using hu2
        rw [this]
        show s.nextTimerId ≠ t.id
        omega
    exact idFree_fire_noop t.id _ (idFree_runTrace t.id tr _ hfree)

/-- Witness for C3: with a 900 ms window pending, re-arming for 500 ms leaves
exactly one expiry, and the superseded timer does not fire even once overdue
(2000 ms later). -/
theorem at_most_one_suppression_timer_witness :
    TimerInv (suppressFor 900 demoState) ∧
    (suppressFor 500 (suppressFor 900 demoState)).timers.map Timer.expiry =
      [(suppressFor 900 demoState).now + 500] ∧
    timerFire 0 (runTrace [Step.tick 2000]
        (suppressFor 500 (suppressFor 900 demoState))) =
      runTrace [Step.tick 2000] (suppressFor 500 (suppressFor 900 demoState)) := by
  have h := at_most_one_suppression_timer (suppressFor 900 demoState) 500 (by decide)
  exact ⟨by decide, h.2.1, h.2.2.2 ⟨0, 900⟩ (by decide) [Step.tick 2000]⟩

/-- C4: two `suppressFor` calls in immediate succession leave the same
observable coordinator state — suppression flag and pending expiry — as a
single call with the second duration. -/
theorem suppressFor_twice_eq_once (s : SysState) (d1 d2 : Nat) (h : TimerInv s) :
    (suppressFor d2 (suppressFor d1 s)).isScrolling = (suppressFor d2 s).isScrolling ∧
    (suppressFor d2 (suppressFor d1 s)).timers.map Timer.expiry =
      (suppressFor d2 s).timers.map Timer.expiry ∧
    (suppressFor d2 (suppressFor d1 s)).timers.map Timer.expiry = [s.now + d2] := by
  simp only [suppressFor]
  have h1 := TimerInv_setScrolling true d1 s h
  have p2 := setScrolling_true_parts d2 (setScrolling true d1 s) h1
  have p3 := setScrolling_true_parts d2 s h
  have hsf := setScrolling_frame true d1 s
  refine ⟨?_, ?_, ?_⟩
  · rw [p2.2.2.2, p3.2.2.2]
  · rw [p2.1, p3.1]
    simp [hsf.2.2.2.1]
  · rw [p2.1]
    simp [hsf.2.2.2.1]

/-- Witness for C4: 300 ms then 700 ms equals a single 700 ms window. -/
theorem suppressFor_twice_eq_once_witness :
    TimerInv demoState ∧
    (suppressFor 700 (suppressFor 300 demoState)).timers.map Timer.expiry =
      [demoState.now + 700] :=
  ⟨by decide, (suppressFor_twice_eq_once demoState 300 700 (by decide)).2.2⟩

/-- C5 counterexample: with `usage` already the active identifier, a second
qualifying visibility event for `usage` invokes the callback again — two
consecutive invocations with the same value, so the claimed de-duplication
does not exist in the code. -/
theorem no_dedup_counterexample :
    activeId (observerCallback [⟨"usage", true⟩] demoState) = some "usage" ∧
    (observerCallback [⟨"usage", true⟩]
        (observerCallback [⟨"usage", true⟩] demoState)).changeLog =
      ["usage", "usage"] := by
  decide

/-- C5 amended: the coordinator performs no de-duplication — a batch
processed while not suppressed invokes the callback exactly once per
qualifying entry, in order, repeats included. -/
theorem callback_fires_per_qualifying_entry (s : SysState) (es : List Entry)
    (h : s.disableDuringScroll = false ∨ s.isScrolling = false) :
    (observerCallback es s).changeLog =
      s.changeLog ++ (es.filter fun e => e.isIntersecting).map Entry.targetId := by
  have hcond : ¬((s.disableDuringScroll && s.isScrolling) = true) := by
    rcases h with h | h <;> simp [h]
  unfold observerCallback
  rw [if_neg hcond]
  exact foldl_changeLog es s

/-- Witness for the amended C5: two qualifying `usage` entries produce two
callback invocations. -/
theorem callback_fires_per_qualifying_entry_witness :
    (demoState.disableDuringScroll = false ∨ demoState.isScrolling = false) ∧
    (observerCallback [⟨"usage", true⟩, ⟨"usage", true⟩] demoState).changeLog =
      demoState.changeLog ++
        (([⟨"usage", true⟩, ⟨"usage", true⟩] : List Entry).filter fun e =>
          e.isIntersecting).map Entry.targetId :=
  ⟨Or.inr rfl, callback_fires_per_qualifying_entry demoState
    [⟨"usage", true⟩, ⟨"usage", true⟩] (Or.inr rfl)⟩

/-- C6 counterexample: `createSectionObserver` accepts an empty and a
duplicate-id section set, returning a normally initialised instance watching
exactly the given sections — where the spec's `observe` contract demands an
`InvalidArgument` failure on these inputs. -/
theorem observe_accepts_empty_and_duplicates :
    (createSectionObserver [] [] true).sections = [] ∧
    (createSectionObserver [] [] true).isScrolling = false ∧
    (createSectionObserver ["a", "a"] [] true).sections = ["a", "a"] ∧
    observeSpec [] = Except.error ObsError.InvalidArgument ∧
    observeSpec ["a", "a"] = Except.error ObsError.InvalidArgument := by
  refine ⟨rfl, rfl, rfl, ?_, ?_⟩ <;> simp [observeSpec]

/-- C6 amended: construction performs no validation — for every section set,
empty and duplicate-id ones included, it succeeds and begins watching
exactly the given sections, with the flag down and no pending timer. -/
theorem createSectionObserver_never_fails (sections : List String)
    (links : List NavLink) (dd : Bool) :
    (createSectionObserver sections links dd).sections = sections ∧
    (createSectionObserver sections links dd).isScrolling = false ∧
    (createSectionObserver sections links dd).timers = [] ∧
    (createSectionObserver sections links dd).navLinks = links :=
  ⟨rfl, rfl, rfl, rfl⟩

/-- C7 counterexample: `navigateTo("missing")` with no such section does not
fail — the source click handler silently leaves the whole state unchanged,
where the spec demands a `NotFound` failure. -/
theorem navigateTo_missing_silent :
    clickHandler "missing" demoState = demoState ∧
    navigateTo "missing" demoState = demoState ∧
    navigateToSpec demoState "missing" = Except.error ObsError.NotFound := by
  refine ⟨by decide, by decide, ?_⟩
  simp [navigateToSpec]
  decide

/-- C7 amended: on an unregistered id the navigation silently does nothing —
no error is raised, and the nav-link marking, suppression flag and timers
are all left exactly as they were. -/
theorem navigateTo_missing_noop (s : SysState) (id : String) (h : id ∉ s.sections) :
    clickHandler id s = s ∧ navigateTo id s = s := by
  constructor
  · unfold clickHandler
    rw [if_neg h]
  · unfold navigateTo
    rw [if_neg h]

/-- Witness for the amended C7. -/
theorem navigateTo_missing_noop_witness :
    "missing" ∉ demoState.sections ∧ navigateTo "missing" demoState = demoState :=
  ⟨by decide, (navigateTo_missing_noop demoState "missing" (by decide)).2⟩

/-- C8: every active-change first unmarks all links and then marks at most
the single link resolved for the new identifier — so at most one nav element
is active after any active-change, whether driven by a click or by a
visibility batch, whatever the marking looked like before. -/
theorem at_most_one_active_link (ls : List NavLink) (id : String) :
    countActive (setActiveLink ls id) ≤ 1 ∧
    (∀ l ∈ unmarkAll ls, l.active = false) ∧
    (∀ l ∈ setActiveLink ls id, l.active = true → l.href = id) ∧
    (id ∈ ls.map NavLink.href → countActive (setActiveLink ls id) = 1) ∧
    (id ∉ ls.map NavLink.href → countActive (setActiveLink ls id) = 0) ∧
    (∀ s : SysState, id ∈ s.sections → countActive ((clickHandler id s).navLinks) ≤ 1) ∧
    (∀ (s : SysState) (es : List Entry),
      ¬(s.disableDuringScroll = true ∧ s.isScrolling = true) →
      (∃ e ∈ es, e.isIntersecting = true) →
      countActive ((observerCallback es s).navLinks) ≤ 1) := by
  refine ⟨countActive_setActiveLink_le ls id, unmarkAll_inactive ls,
    active_href_markFirst (unmarkAll ls) id (unmarkAll_inactive ls), ?_, ?_, ?_, ?_⟩
  · intro hmem
    rw [countActive_setActiveLink, if_pos hmem]
  · intro hmem
    rw [countActive_setActiveLink, if_neg hmem]
  · intro s hid
    have : (clickHandler id s).navLinks = setActiveLink s.navLinks id := by
      unfold clickHandler
      rw [if_pos hid]
    rw [this]
    exact countActive_setActiveLink_le s.navLinks id
  · intro s es hsup hhit
    have hcond : ¬((s.disableDuringScroll && s.isScrolling) = true) := by
      intro hc
      rw [Bool.and_eq_true] at hc
      exact hsup ⟨hc.1, hc.2⟩
    have : observerCallback es s = es.foldl processEntry s := by
      unfold observerCallback
      rw [if_neg hcond]
    rw [this]
    exact countActive_foldl_hit es s hhit

/-- Witness for C8: even starting from a corrupted marking with two active
links, one active-change restores the at-most-one discipline. -/
theorem at_most_one_active_link_witness :
    (("api" ∈ ([⟨"intro", true⟩, ⟨"api", true⟩] : List NavLink).map NavLink.href) ∧
      countActive (setActiveLink [⟨"intro", true⟩, ⟨"api", true⟩] "api") = 1) ∧
    (("gone" ∉ ([⟨"intro", true⟩, ⟨"api", true⟩] : List NavLink).map NavLink.href) ∧
      countActive (setActiveLink [⟨"intro", true⟩, ⟨"api", true⟩] "gone") = 0) :=
  ⟨⟨by decide, (at_most_one_active_link [⟨"intro", true⟩, ⟨"api", true⟩] "api").2.2.2.1
      (by decide)⟩,
    ⟨by decide, (at_most_one_active_link [⟨"intro", true⟩, ⟨"api", true⟩] "gone").2.2.2.2.1
      (by decide)⟩⟩

/-- C9: `setScrolling(false, d)` is an early release for any duration —
flag down immediately, pending timer cancelled, nothing rescheduled, no
expiry can fire afterwards, and visibility batches are processed again at
once. -/
theorem setScrolling_false_releases (s : SysState) (d : Nat) (h : TimerInv s) :
    (setScrolling false d s).isScrolling = false ∧
    (setScrolling false d s).timers = [] ∧
    (∀ tid, timerFire tid (setScrolling false d s) = setScrolling false d s) ∧
    (∀ es, observerCallback es (setScrolling false d s) =
      es.foldl processEntry (setScrolling false d s)) := by
  obtain ⟨ht, hf⟩ := setScrolling_false_parts d s h
  refine ⟨hf, ht, ?_, ?_⟩
  · intro tid
    unfold timerFire
    rw [if_neg]
    rintro ⟨t, htm, _, _⟩
    rw [ht] at htm
    cases htm
  · intro es
    unfold observerCallback
    rw [if_neg (by simp [hf])]

/-- Witness for C9: releasing in the middle of a 1000 ms window. -/
theorem setScrolling_false_releases_witness :
    TimerInv (suppressFor 1000 demoState) ∧
    (setScrolling false 555 (suppressFor 1000 demoState)).isScrolling = false ∧
    (setScrolling false 555 (suppressFor 1000 demoState)).timers = [] := by
  have h := setScrolling_false_releases (suppressFor 1000 demoState) 555 (by decide)
  exact ⟨by decide, h.1, h.2.1⟩

/-- C10: with `disableDuringScroll = false` the suppression flag is ignored —
every qualifying entry still invokes the callback even while a window is
armed — whereas dropping a batch requires the default `true` configuration
with the flag up. -/
theorem observer_ignores_suppression_when_configured (s : SysState) (es : List Entry)
    (hdd : s.disableDuringScroll = false) :
    observerCallback es s = es.foldl processEntry s ∧
    (observerCallback es s).changeLog =
      s.changeLog ++ (es.filter fun e => e.isIntersecting).map Entry.targetId ∧
    (∀ s2 : SysState, s2.disableDuringScroll = true → s2.isScrolling = true →
      observerCallback es s2 = s2) := by
  have h1 : observerCallback es s = es.foldl processEntry s := by
    unfold observerCallback
    rw [if_neg (by simp [hdd])]
  refine ⟨h1, ?_, ?_⟩
  · rw [h1]
    exact foldl_changeLog es s
  · intro s2 h2 h3
    unfold observerCallback
    rw [if_pos (by simp [h2, h3])]

/-- A page configured with `disableDuringScroll = false` whose suppression
window is currently armed. -/
def ddOffState : SysState :=
  { demoState with disableDuringScroll := false, isScrolling := true }

/-- Witness for C10: with the flag up but `disableDuringScroll = false`, a
`usage` event still fires the callback. -/
theorem observer_ignores_suppression_when_configured_witness :
    (ddOffState.disableDuringScroll = false ∧ ddOffState.isScrolling = true) ∧
    (observerCallback [⟨"usage", true⟩] ddOffState).changeLog = ["usage"] := by
  have h := observer_ignores_suppression_when_configured ddOffState
    [⟨"usage", true⟩] rfl
  exact ⟨⟨rfl, rfl⟩, h.2.1.trans (by decide)⟩

end HtmxR
